import Mathlib

/-!
# Verification of the station-model-symbology renderer

A shallow embedding of the WMO surface-station plotting-model renderer:

* `main.js` (slot grid layout, per-slot field rules, wind/hemisphere geometry,
  `windSpeedSymbolMatch`),
* `main_worker.js` (the SYNOP decoding request orchestrator), and
* `wrapper_Leaflet.js` (the host map-layer integration).

Modelling conventions:

* JavaScript numbers are modelled by `ℚ`.  Every numeric theorem below is
  restricted to tenths-valued inputs (`value * 10` an integer), the domain the
  decoder produces; on that domain the IEEE-754 arithmetic performed by the
  code (`v * 10`, `v / 2.5`, `v / 5`, comparisons) is exact, so the rational
  model and the JavaScript semantics agree.
* A decoded-record field can be key-absent (`undefined`), present-but-null, or
  present with a value; these three states are distinguished (`JsProp`), since
  `hasOwnProperty` and `!= null` observe them differently.
* Member access on `undefined`/`null` raises a `TypeError`; code paths that can
  perform such an access are modelled in `Except JsErr`.
* DOM primitives appended to a slot group are modelled by `Prim` (a text or an
  icon identified by the asset path it was loaded from, with its local shift);
  the asset collaborator is a function `String → Bool` saying whether the
  vector-icon asset at a path exists (`loadSVGIcon` returns the fragment or
  `undefined`).
-/

/-! ## JavaScript field model -/

/-- Three-state model of a JavaScript object property: key absent
(`undefined`), present-but-null, or present with a value. -/
inductive JsProp (α : Type) where
  | absent
  | pnull
  | val (a : α)
deriving Repr, DecidableEq

/-- `obj.hasOwnProperty(k)`: true unless the key is absent. -/
def JsProp.hasOwn {α : Type} : JsProp α → Bool
  | .absent => false
  | .pnull => true
  | .val _ => true

/-- JS loose test `x != null`: fails on both `undefined` and `null`. -/
def JsProp.isVal {α : Type} : JsProp α → Bool
  | .val _ => true
  | _ => false

/-- A raised JavaScript `TypeError` (member access on `undefined`/`null`). -/
inductive JsErr where
  | typeError
deriving Repr, DecidableEq

/-- Member access `x.f` on a possibly `undefined`/`null` `x`: raises
`TypeError` unless `x` is an actual object. -/
def JsProp.get {α : Type} : JsProp α → Except JsErr α
  | .val a => .ok a
  | _ => .error .typeError

/-! ## JavaScript string and number helpers -/

/-- `String.prototype.padStart(n, c)` with a single-character pad. -/
def padStart (s : String) (n : Nat) (c : Char) : String :=
  if n ≤ s.length then s else String.mk (List.replicate (n - s.length) c) ++ s

/-- `String.prototype.slice(-k)`: the last `k` characters (the whole string
when it is shorter than `k`). -/
def jsSliceLast (s : String) (k : Nat) : String :=
  String.mk (s.toList.drop (s.length - k))

/-- `String.prototype.slice(k)` for `k ≥ 0`: drop the first `k` characters. -/
def jsSliceFrom (s : String) (k : Nat) : String :=
  String.mk (s.toList.drop k)

/-- `String(x)` for a JavaScript number, on the domain the renderer meets:
an integer-valued double prints as its decimal digits (with a leading `-`
when negative).  Every theorem below stringifies only integer-valued
numbers, so the non-integer fallback is never exercised. -/
def jsNumToString (q : ℚ) : String :=
  if q.den = 1 then q.num.repr
  else q.num.repr ++ "/" ++ (q.den : Int).repr

/-- `Math.round`: round half toward positive infinity. -/
def jsRound (q : ℚ) : ℤ := ⌊q + 1/2⌋

/-! ## `windSpeedSymbolMatch` (main.js lines 95-114)

Matches a wind speed (m/s or KT) to the number in the wind-barb icon file
name, zero-padded to two digits.  The `default` branch of the source switch
logs an error and leaves `symbolFileNumber` undefined, so
`String(symbolFileNumber).padStart(2, "0")` yields `"undefined"`. -/

def windSpeedSymbolMatch (speed : ℚ) (sourceUnit : String) : String :=
  if sourceUnit = "m/s" then
    padStart (jsRound (speed / 2.5)).repr 2 '0'
  else if sourceUnit = "KT" then
    padStart (jsRound (speed / 5)).repr 2 '0'
  else
    padStart "undefined" 2 '0'

/-! ## Slot 8: sea-level pressure plot code (main.js lines 386-394)

`(v % 1 == 0 ? String(v + "0").slice(-3)
             : String(v * 10).slice(-3).padStart(3, 0))` -/

def slot8PressurePlotCode (v : ℚ) : String :=
  if v.den = 1 then jsSliceLast (jsNumToString v ++ "0") 3
  else padStart (jsSliceLast (jsNumToString (v * 10)) 3) 3 '0'

/-! ## Slot 13: pressure-tendency plot text (main.js lines 590-612)

Returns the rendered text together with the polychromatic recoloring flag
(`fill: red` set on the slot group). -/

def slot13TendencyText (polyChromatic : Bool) (v : ℚ) : String × Bool :=
  let processedValue :=
    if |v| ≤ 9.9 then
      if v < 0 then "-" ++ padStart (jsNumToString (|v| * 10)) 2 '0'
      else padStart (jsNumToString (v * 10)) 2 '0'
    else jsNumToString (v * 10)
  if polyChromatic && decide (v < 0) then (jsSliceFrom processedValue 1, true)
  else (processedValue, false)

/-! ## Decoded-observation record (the fields the verified slot rules read)

Field and structure names follow the decoded JSON produced by the worker
(pymetdecoder); `code` stands for the JSON key `_code`. -/

/-- A `{value}` leaf whose value may itself be absent or null. -/
structure ValObj where
  value : JsProp ℚ
deriving Repr, DecidableEq

structure CloudTypes where
  high_cloud_type : JsProp ValObj
  middle_cloud_type : JsProp ValObj
  low_cloud_type : JsProp ValObj
  low_cloud_amount : JsProp ValObj
  middle_cloud_amount : JsProp ValObj
deriving Repr, DecidableEq

structure WeatherIndicator where
  value : ℚ
  automatic : Bool
deriving Repr, DecidableEq

structure PresentWeather where
  value : ℚ
deriving Repr, DecidableEq

structure LowestCloudBase where
  code : JsProp ℚ
deriving Repr, DecidableEq

structure WindSpeed where
  value : ℚ
  unit : String
deriving Repr, DecidableEq

structure WindDirection where
  value : JsProp ℚ
deriving Repr, DecidableEq

structure SurfaceWind where
  direction : JsProp WindDirection
  speed : JsProp WindSpeed
deriving Repr, DecidableEq

/-- A past-weather value: a number from the decoder, or the string `"3a"`
after the slot-18 rule has patched it. -/
inductive PastWeatherVal where
  | num (q : ℚ)
  | str (s : String)
deriving Repr, DecidableEq

structure PastWeatherEntry where
  value : JsProp PastWeatherVal
deriving Repr, DecidableEq

/-- `past_weather` is an ordered pair; `w1`/`w2` stand for
`past_weather[0]`/`past_weather[1]` (absent models an index beyond the
array length, pnull a null entry). -/
structure PastWeather where
  w1 : JsProp PastWeatherEntry
  w2 : JsProp PastWeatherEntry
deriving Repr, DecidableEq

structure PressureChange where
  value : JsProp ℚ
deriving Repr, DecidableEq

structure PressureTendency where
  change : JsProp PressureChange
  tendency : JsProp PressureChange
deriving Repr, DecidableEq

structure Decoded where
  sea_level_pressure : JsProp ValObj
  pressure_tendency : JsProp PressureTendency
  present_weather : JsProp PresentWeather
  weather_indicator : JsProp WeatherIndicator
  cloud_types : JsProp CloudTypes
  lowest_cloud_base : JsProp LowestCloudBase
  surface_wind : JsProp SurfaceWind
  past_weather : JsProp PastWeather
deriving Repr, DecidableEq

/-! ## Visual primitives -/

/-- A primitive appended to a slot group: text content, or an icon identified
by the asset path it was loaded from; `shift` is the local translate offset
from the slot centre (an exact rational stand-in for the source's
double-precision offsets, which no claim observes). -/
inductive Prim where
  | text (s : String) (shift : ℚ × ℚ)
  | icon (path : String) (shift : ℚ × ℚ)
deriving Repr, DecidableEq

/-- Recoloring applied to a whole slot group. -/
inductive Recolor where
  | redFill
  | redFilter
deriving Repr, DecidableEq

/-- The outcome of one slot rule: the primitives appended to the slot group
plus the optional recoloring style set on the group. -/
structure SlotRender where
  prims : List Prim
  style : Option Recolor
deriving Repr, DecidableEq

/-- `loadSVGIcon` followed by the guarded
`if (icon) { ...; element.appendChild(icon) }` pattern: a missing asset is
silently skipped. -/
def iconOpt (assets : String → Bool) (path : String) (shift : ℚ × ℚ) :
    List Prim :=
  if assets path then [.icon path shift] else []

/-- `textSvg.innerHTML = x` for a decoded numeric code: a number prints as
its digits, `null` as the empty string, `undefined` as `"undefined"`. -/
def jsHtmlString : JsProp ℚ → String
  | .val q => jsNumToString q
  | .pnull => ""
  | .absent => "undefined"

/-! ## Wind overlay (main.js lines 516-580)

The wind plot anchored at slot 12.  Note that the final
`element.appendChild(icon)` of the source sits outside every `if (icon)`
guard, so when the selected wind asset is missing the branch raises a
`TypeError` (`appendChild(undefined)`). -/

def windArrowPath (name : String) : String :=
  "./symbols/ddff_WindArrows/WeatherSymbol_WMO_WindArrow" ++ name ++ ".svg"

/-- The wind primitive: the calm-wind marker, or a shaft icon rotated by the
given angle in degrees. -/
inductive WindPrim where
  | calm (path : String)
  | shaft (path : String) (rotation : ℚ)
deriving Repr, DecidableEq

/-- The wind branch of slot 12.  `pointLat` is `pointCoords[1]`, the latitude
of the feature (GeoJSON coordinates are `[lon, lat]`). -/
def windRule (assets : String → Bool) (pointLat : ℚ) (d : Decoded) :
    Except JsErr (Option WindPrim) :=
  match d.surface_wind with
  | .val sw =>
    match sw.direction with
    | .val dir =>
      match dir.value with
      | .val dv =>
        match sw.speed with
        | .val sp =>
          let symbolFileNumber := windSpeedSymbolMatch sp.value sp.unit
          if symbolFileNumber = "00" ∨ symbolFileNumber = "01" then
            if assets (windArrowPath "Calm_00") then
              .ok (some (.calm (windArrowPath "Calm_00")))
            else .error .typeError
          else if pointLat > 0 then
            let p := windArrowPath ("NH_" ++ symbolFileNumber)
            if assets p then .ok (some (.shaft p (dv + 90)))
            else .error .typeError
          else
            let p := windArrowPath ("SH_" ++ symbolFileNumber)
            if assets p then .ok (some (.shaft p (dv - 90)))
            else .error .typeError
        | _ =>
          let p := windArrowPath "Missing_99"
          if assets p then .ok (some (.shaft p (dv + 90)))
          else .error .typeError
      | _ => .ok none
    | _ => .ok none
  | _ => .ok none

/-! ## Slot 11: present weather (main.js lines 421-465) -/

def wawaIconPath (code : String) : String :=
  "./symbols/wawa_PresentWeatherAutomaticStation/WeatherSymbol_WMO_PresentWeatherAutomaticStation_wawa_"
    ++ code ++ ".svg"

def wwIconPath (code : String) : String :=
  "./symbols/ww_PresentWeather/WeatherSymbol_WMO_PresentWeather_ww_" ++ code
    ++ ".svg"

/-- Slot 11 rule.  The outer guard is `present_weather != null`; inside it,
`weather_indicator.automatic` is dereferenced unguarded (a `TypeError` when
`weather_indicator` is absent or null).  The `!hasOwnProperty("present_weather")`
sub-conditions of the source are kept verbatim even though they can never
hold under the outer guard. -/
def slot11Rule (assets : String → Bool) (d : Decoded) :
    Except JsErr SlotRender :=
  match d.present_weather with
  | .val pw => do
    let wi ← d.weather_indicator.get
    if wi.automatic = true then
      if wi.value = 5 then .ok ⟨[], none⟩
      else if wi.value = 6 ∨ (wi.value = 7 ∧ d.present_weather.hasOwn = false)
      then .ok ⟨[.text "//" (0, 0)], none⟩
      else
        let p := wawaIconPath (padStart (jsNumToString pw.value) 2 '0')
        .ok ⟨iconOpt assets p (-1333/1000, 0), none⟩
    else
      if wi.value = 2 ∨ wi.value = 5 then .ok ⟨[], none⟩
      else if wi.value = 3 ∨ wi.value = 6 ∨
          ((wi.value = 1 ∨ wi.value = 4) ∧ d.present_weather.hasOwn = false)
      then .ok ⟨[.text "//" (0, 0)], none⟩
      else
        let p := wwIconPath (padStart (jsNumToString pw.value) 2 '0')
        .ok ⟨iconOpt assets p (-1333/1000, 0), none⟩
  | _ => .ok ⟨[], none⟩

/-! ## Slot 8 rule wrapper (main.js lines 386-394) -/

/-- Slot 8 rule: guarded by `sea_level_pressure != null`; the `.value` is
processed unguarded, so a null value flows through the JS coercions
(`null % 1 == 0` holds and `String(null + "0").slice(-3)` is `"ll0"`) and an
absent one through NaN (`String(NaN * 10).slice(-3)` is `"NaN"`). -/
def slot8Rule (d : Decoded) : List Prim :=
  match d.sea_level_pressure with
  | .val slp =>
    match slp.value with
    | .val v => [.text (slot8PressurePlotCode v) (0, 0)]
    | .pnull => [.text "ll0" (0, 0)]
    | .absent => [.text "NaN" (0, 0)]
  | _ => []

/-! ## Slot 13 rule wrapper (main.js lines 590-612) -/

/-- Slot 13 rule: guards
`hasOwnProperty("pressure_tendency") && pressure_tendency.hasOwnProperty("change")
&& change != null && change.value != null`; a present-but-null
`pressure_tendency` raises on `null.hasOwnProperty`. -/
def slot13Rule (polyChromatic : Bool) (d : Decoded) : Except JsErr SlotRender :=
  match d.pressure_tendency with
  | .absent => .ok ⟨[], none⟩
  | .pnull => .error .typeError
  | .val pt =>
    match pt.change with
    | .val ch =>
      match ch.value with
      | .val v =>
        let (txt, red) := slot13TendencyText polyChromatic v
        .ok ⟨[.text txt (0, 0)], if red then some .redFill else none⟩
      | _ => .ok ⟨[], none⟩
    | _ => .ok ⟨[], none⟩

/-! ## Slot 17: low cloud type, amount and base height (main.js lines 681-808)

Five mutually exclusive sub-layouts.  Unguarded dereferences of the source
are kept: `cloud_types.hasOwnProperty(..)` on a null `cloud_types`,
`middle_cloud_amount.value` / `low_cloud_amount.value` on a null amount,
`lowest_cloud_base._code` on a null base, and — in the
`low_cloud_type.value == 0` sub-layout — `lowest_cloud_base._code` with no
presence check at all. -/

def cloudLowIconPath (v : ℚ) : String :=
  "./symbols/CL_CloudLow/WeatherSymbol_WMO_CloudLow_CL_" ++ jsNumToString v
    ++ ".svg"

def slot17Rule (assets : String → Bool) (d : Decoded) :
    Except JsErr (List Prim) :=
  match d.cloud_types with
  | .absent => .ok []
  | .pnull => .error .typeError
  | .val ct =>
    match ct.low_cloud_type with
    | .val lct =>
      match lct.value with
      | .val lv =>
        if lv = 0 then
          match ct.middle_cloud_amount with
          | .absent => .ok []
          | .pnull => .error .typeError
          | .val mca =>
            if mca.value.isVal then do
              let nh := Prim.text (jsHtmlString mca.value) (1333/320, -1333/500)
              let lcb ← d.lowest_cloud_base.get
              .ok [nh, Prim.text (jsHtmlString lcb.code) (-1333/320, 1333/260)]
            else .ok []
        else
          match ct.low_cloud_amount with
          | .pnull => .error .typeError
          | .val lca =>
            if lca.value.isVal then
              match d.lowest_cloud_base with
              | .val lcb =>
                if lcb.code.isVal then
                  .ok (iconOpt assets (cloudLowIconPath lv) (-1333/320, -1333/320)
                    ++ [Prim.text (jsHtmlString lca.value) (1333/320, -1333/500),
                        Prim.text (jsHtmlString lcb.code) (-1333/320, 1333/260)])
                else
                  .ok (iconOpt assets (cloudLowIconPath lv) (-1333/320, 0)
                    ++ [Prim.text (jsHtmlString lca.value) (1333/320, 0)])
              | .pnull => .error .typeError
              | .absent =>
                .ok (iconOpt assets (cloudLowIconPath lv) (-1333/320, 0)
                  ++ [Prim.text (jsHtmlString lca.value) (1333/320, 0)])
            else
              match d.lowest_cloud_base with
              | .val lcb =>
                if lcb.code.isVal then
                  .ok (iconOpt assets (cloudLowIconPath lv) (0, -1333/320)
                    ++ [Prim.text (jsHtmlString lcb.code) (0, 1333/320)])
                else .ok (iconOpt assets (cloudLowIconPath lv) (0, 0))
              | .pnull => .error .typeError
              | .absent => .ok (iconOpt assets (cloudLowIconPath lv) (0, 0))
          | .absent =>
            match d.lowest_cloud_base with
            | .val lcb =>
              if lcb.code.isVal then
                .ok (iconOpt assets (cloudLowIconPath lv) (0, -1333/320)
                  ++ [Prim.text (jsHtmlString lcb.code) (0, 1333/320)])
              else .ok (iconOpt assets (cloudLowIconPath lv) (0, 0))
            | .pnull => .error .typeError
            | .absent => .ok (iconOpt assets (cloudLowIconPath lv) (0, 0))
      | _ => .ok []
    | _ => .ok []

/-! ## Slot 18: past weather (main.js lines 822-915)

The manned branch patches `past_weather[i].value` from the number `3` to the
string `"3a"` in the decoded record itself before assembling the icon path,
so the rule returns the (possibly mutated) record alongside the rendered
primitives. -/

/-- `Number(s)` for the strings met here: a digit string parses as the
number it spells (the empty string as 0); anything else, such as `"3a"`,
is NaN (`none`). -/
def jsStringToNumber (s : String) : Option ℚ :=
  if s.toList.all Char.isDigit then
    some ((s.toList.foldl (fun n c => n * 10 + (c.toNat - 48)) 0 : ℕ) : ℚ)
  else none

/-- JS string concatenation `"" + x` of a possibly-absent value. -/
def jsConcatVal : JsProp PastWeatherVal → String
  | .absent => "undefined"
  | .pnull => "null"
  | .val (.num q) => jsNumToString q
  | .val (.str s) => s

/-- JS loose equality `x == n` of a past-weather value against a number
literal: `undefined` and `null` compare false, a number compares
numerically, a string is coerced with `Number(s)` (NaN compares false). -/
def jsLooseEqNum (x : JsProp PastWeatherVal) (n : ℚ) : Bool :=
  match x with
  | .val (.num q) => q = n
  | .val (.str s) =>
    match jsStringToNumber s with
    | some q => q = n
    | none => false
  | _ => false

def pastWeatherMannedPath (v : JsProp PastWeatherVal) : String :=
  "./symbols/W1W2_PastWeather/WeatherSymbol_WMO_PastWeather_W1W2_"
    ++ jsConcatVal v ++ ".svg"

def pastWeatherAutoPath (v : JsProp PastWeatherVal) : String :=
  "./symbols/Wa1Wa2_PastWeatherAutomaticStation/WeatherSymbol_WMO_PastWeatherAutomaticStation_Wa1Wa1_"
    ++ jsConcatVal v ++ ".svg"

/-- The `(entry.value == 3 ? entry.value = "3a" : "")` workaround of the
source. -/
def patch3a (e : PastWeatherEntry) : PastWeatherEntry :=
  if jsLooseEqNum e.value 3 then ⟨.val (.str "3a")⟩ else e

def slot18Rule (assets : String → Bool) (polyChromatic : Bool) (d : Decoded) :
    Except JsErr (SlotRender × Decoded) :=
  match d.past_weather with
  | .val pw =>
    if pw.w1.isVal ∨ pw.w2.isVal then do
      let wi ← d.weather_indicator.get
      if wi.automatic = true then
        let singleW1 : Except JsErr (SlotRender × Decoded) := do
          let e1 ← pw.w1.get
          .ok (⟨iconOpt assets (pastWeatherAutoPath e1.value) (0, 0), none⟩, d)
        match pw.w2 with
        | .val e2 =>
          if e2.value.isVal then do
            let e1 ← pw.w1.get
            .ok (⟨iconOpt assets (pastWeatherAutoPath e1.value) (-1333/320, 0)
              ++ iconOpt assets (pastWeatherAutoPath e2.value) (1333/320, 0),
              none⟩, d)
          else singleW1
        | _ => singleW1
      else
        let mannedSingle : Except JsErr (SlotRender × Decoded) :=
          match pw.w1 with
          | .val e1 =>
            if e1.value.isVal ∧ jsLooseEqNum e1.value 0 = false ∧
                jsLooseEqNum e1.value 1 = false ∧ jsLooseEqNum e1.value 2 = false
            then
              let e1 := patch3a e1
              let iok := assets (pastWeatherMannedPath e1.value)
              .ok (⟨if iok then [.icon (pastWeatherMannedPath e1.value) (0, 0)]
                    else [],
                    if iok ∧ polyChromatic = true then some .redFilter else none⟩,
                { d with past_weather := .val ⟨.val e1, pw.w2⟩ })
            else .ok (⟨[], none⟩, d)
          | _ => .ok (⟨[], none⟩, d)
        match pw.w2 with
        | .val e2 =>
          if e2.value.isVal ∧ jsLooseEqNum e2.value 0 = false ∧
              jsLooseEqNum e2.value 1 = false ∧ jsLooseEqNum e2.value 2 = false
          then do
            let e1 ← pw.w1.get
            let e1 := patch3a e1
            let icon1ok := assets (pastWeatherMannedPath e1.value)
            let e2 := if icon1ok then patch3a e2 else e2
            let icon2ok := assets (pastWeatherMannedPath e2.value)
            .ok (⟨(if icon1ok then
                    [Prim.icon (pastWeatherMannedPath e1.value) (-1333/380, 0)]
                  else []) ++
                  (if icon2ok then
                    [Prim.icon (pastWeatherMannedPath e2.value) (1333/220, 0)]
                  else []),
                  if icon2ok ∧ polyChromatic = true then some .redFilter
                  else none⟩,
              { d with past_weather := .val ⟨.val e1, .val e2⟩ })
          else mannedSingle
        | _ => mannedSingle
    else .ok (⟨[], none⟩, d)
  -- present-but-null past_weather passes the hasOwnProperty guard and then
  -- `decodedData.past_weather[0]` raises
  | .pnull => .error .typeError
  | .absent => .ok (⟨[], none⟩, d)

/-! ## The shared decoded-results table

`decodedSynops` in main.js: every worker response is pushed into this array
and never evicted; `meteoStation` obtains its record by reference from the
matching entry, so an in-place mutation performed by a slot rule is visible
in the table after compilation. -/

def decodedSynopsLookup (table : List (ℕ × Decoded)) (leafletID : ℕ) :
    Option Decoded :=
  (table.find? (fun p => p.1 = leafletID)).map (fun p => p.2)

/-- Running the slot-18 rule for the record of `leafletID`: because the JS
rule mutates the record in place and the table entry aliases it, the table
afterwards holds the rule's output record. -/
def meteoStationSlot18 (assets : String → Bool) (polyChromatic : Bool)
    (table : List (ℕ × Decoded)) (leafletID : ℕ) :
    Option (Except JsErr SlotRender × List (ℕ × Decoded)) :=
  match decodedSynopsLookup table leafletID with
  | none => none
  | some d =>
    match slot18Rule assets polyChromatic d with
    | .ok (r, d2) =>
      some (.ok r,
        table.map (fun p => if p.1 = leafletID then (p.1, d2) else p))
    | .error e => some (.error e, table)

/-! ## Slot grid layout engine (main.js lines 160-292)

The `plottingModelSlotsContent.forEach` loop of `meteoStation`: 26 slot
groups; index 25 (the reserved exterior slot) is never appended; slot 12 is
pinned to the canvas centre `translate(50, 50)`; every other slot is placed
by the running `(x, y)` cursor starting at `(16.66, 16.66)` with cell size
`13.33`.  When an index is listed in `elementsToOmit` the group is still
appended (the cursor still advances) but the per-index switch is skipped —
except index 12, which logs a diagnostic and is rendered anyway.  The
per-index switch itself is abstracted by the `rule` parameter, since the
layout and suppression logic is independent of it. -/

structure RenderOptions where
  scalingStationModel : ℚ := 1
  scalingFont : ℚ := 1
  polyChromatic : Bool := true
  highCloudsInRed : Bool := true
  temperature : String := "raw"
  dewPoint : String := "raw"
  elementsToOmit : List ℕ := []
  debug : Bool := false
deriving Repr, DecidableEq

/-- A diagnostic logged with `console.warn` during the slot loop. -/
inductive Warn where
  | cell12CannotBeOmitted
  | omittingCell (i : ℕ)
deriving Repr, DecidableEq

/-- A slot group appended to the output svg: its index, its translate
position on the 100×100 canvas, the primitives the per-index rule appended,
and whether the debug outline rectangle was added at creation time. -/
structure SlotOut where
  idx : ℕ
  pos : ℚ × ℚ
  content : List Prim
  debugBox : Bool
deriving Repr, DecidableEq

def meteoStationSlotsAux (opts : RenderOptions) (rule : ℕ → List Prim) :
    List ℕ → ℚ → ℚ → List SlotOut × List Warn
  | [], _, _ => ([], [])
  | i :: rest, x₀, y₀ =>
    if i = 25 then
      -- bottom exterior slot: reserved, nothing appended (source TODO)
      meteoStationSlotsAux opts rule rest x₀ y₀
    else
      -- end of row reached: reset x, advance y
      let x := if i ≠ 0 ∧ i % 5 = 0 then (1666/100 : ℚ) else x₀
      let y := if i ≠ 0 ∧ i % 5 = 0 then y₀ + 1333/100 else y₀
      let pos := if i = 12 then ((50 : ℚ), (50 : ℚ)) else (x, y)
      let entry : SlotOut :=
        if i ∈ opts.elementsToOmit ∧ i ≠ 12 then
          ⟨i, pos, [], opts.debug && decide (i ≠ 12)⟩
        else
          ⟨i, pos, rule i, opts.debug && decide (i ≠ 12)⟩
      let warns : List Warn :=
        if i ∈ opts.elementsToOmit ∧ i ≠ 12 then [.omittingCell i]
        else if i ∈ opts.elementsToOmit then [.cell12CannotBeOmitted]
        else []
      let next := meteoStationSlotsAux opts rule rest (x + 1333/100) y
      (entry :: next.1, warns ++ next.2)

/-- The appended slot groups (indices 0-24 in order) and the logged
diagnostics of one `meteoStation` compilation with a successfully decoded
record. -/
def meteoStationSlots (opts : RenderOptions) (rule : ℕ → List Prim) :
    List SlotOut × List Warn :=
  meteoStationSlotsAux opts rule (List.range 26) (1666/100) (1666/100)

/-- The grid position of slot `i` (`i < 25`, `i ≠ 12`): origin `(16.66,
16.66)`, cell `13.33 × 13.33`, row-major. -/
def gridPos (i : ℕ) : ℚ × ℚ :=
  (1666/100 + (i % 5 : ℕ) * (1333/100), 1666/100 + (i / 5 : ℕ) * (1333/100))

/-! ## Decoding request orchestrator (main_worker.js)

The worker is single-threaded: an `onmessage` invocation runs to completion
before the next one starts, and `processQueue` drains the queue
synchronously (so `processQueueIsRunning` is unobservable between events and
is not part of the state).  `decode` abstracts the Pyodide/pymetdecoder
backend; `ρ` is its result type. -/

structure WorkerMsg where
  SYNOP_raw : JsProp String
  leafletID : ℕ
deriving Repr, DecidableEq

/-- JS loose test `x == null`: true exactly on `undefined` and `null`. -/
def JsProp.looseNull {α : Type} : JsProp α → Bool
  | .val _ => false
  | _ => true

structure WState (ρ : Type) where
  pyodideStarting : Bool
  messageQueue : List WorkerMsg
  outbox : List (Option ρ × ℕ)

/-- `decodeSynop`: run the backend on one queued message and post
`{decoded, leafletID}` back. -/
def decodeSynop {ρ : Type} (decode : JsProp String → ρ) (m : WorkerMsg) :
    Option ρ × ℕ :=
  (some (decode m.SYNOP_raw), m.leafletID)

/-- `processQueue`: `while (messageQueue.length > 0) decodeSynop(shift())`. -/
def processQueueLoop {ρ : Type} (decode : JsProp String → ρ) :
    List WorkerMsg → List (Option ρ × ℕ)
  | [] => []
  | m :: rest => decodeSynop decode m :: processQueueLoop decode rest

def processQueue {ρ : Type} (decode : JsProp String → ρ) (st : WState ρ) :
    WState ρ :=
  { st with
    messageQueue := [],
    outbox := st.outbox ++ processQueueLoop decode st.messageQueue }

/-- `handleMessage` (main_worker.js lines 99-122): null raw text is answered
immediately with a null result and nothing is enqueued; otherwise the
message is enqueued, and the queue is drained at once unless Pyodide is
still starting. -/
def handleMessage {ρ : Type} (decode : JsProp String → ρ) (st : WState ρ)
    (m : WorkerMsg) : WState ρ :=
  if m.SYNOP_raw.looseNull then
    { st with outbox := st.outbox ++ [(none, m.leafletID)] }
  else if st.pyodideStarting then
    { st with messageQueue := st.messageQueue ++ [m] }
  else
    processQueue decode { st with messageQueue := st.messageQueue ++ [m] }

/-- Completion of `startPyodide().then(...)`: `pyodideStarting` has been
cleared, and any buffered messages are drained. -/
def pyodideInitDone {ρ : Type} (decode : JsProp String → ρ) (st : WState ρ) :
    WState ρ :=
  let st := { st with pyodideStarting := false }
  if st.messageQueue.length > 0 then processQueue decode st else st

inductive WEvent where
  | msg (m : WorkerMsg)
  | initDone

def wstep {ρ : Type} (decode : JsProp String → ρ) (st : WState ρ) :
    WEvent → WState ρ
  | .msg m => handleMessage decode st m
  | .initDone => pyodideInitDone decode st

def wrun {ρ : Type} (decode : JsProp String → ρ) (st : WState ρ) :
    List WEvent → WState ρ
  | [] => st
  | e :: es => wrun decode (wstep decode st e) es

/-! ## Host map-layer wrapper (wrapper_Leaflet.js lines 12-55)

`_main` iterates the layers; a feature whose configured attribute field is
missing, or present with the empty string, is skipped before `meteoStation`
(and hence the decoder) is ever invoked. -/

structure Feature where
  /-- `layer.feature.properties[options.field]` for the configured field. -/
  fieldValue : JsProp String
  leafletID : ℕ
deriving Repr, DecidableEq

/-- The two early-return guards of `_main`: attribute missing, or attribute
equal to the empty string (`== ""` is false for `null`, which therefore
proceeds). -/
def wrapperSkips (f : Feature) : Bool :=
  match f.fieldValue with
  | .absent => true
  | .pnull => false
  | .val s => s = ""

/-- The `meteoStation` invocations `_main` performs for a feature list:
`(rawSynop, leafletID)` pairs, in layer order, skipped features excluded. -/
def wrapperInvocations (fs : List Feature) : List (JsProp String × ℕ) :=
  fs.filterMap (fun f =>
    if wrapperSkips f then none else some (f.fieldValue, f.leafletID))

/-! ## Auxiliary definitions used by the theorems below -/

/-- A decoded record with every field absent (building block for concrete
test observations). -/
def emptyDecoded : Decoded :=
  ⟨.absent, .absent, .absent, .absent, .absent, .absent, .absent, .absent⟩

/-- A record carrying only a sea-level pressure. -/
def pressureOnly (v : JsProp ℚ) : Decoded :=
  { emptyDecoded with sea_level_pressure := .val ⟨v⟩ }

/-- A record carrying only a pressure-tendency change. -/
def tendencyOnly (v : JsProp ℚ) : Decoded :=
  { emptyDecoded with pressure_tendency := .val ⟨.val ⟨v⟩, .absent⟩ }

/-- The record as slot 18 leaves it: `past_weather[0].value` overwritten
with the string `"3a"`, `past_weather[1]` patched by `patch3a`. -/
def slot18Mutated (d : Decoded) (e2 : PastWeatherEntry) : Decoded :=
  { d with
    past_weather := JsProp.val
      ⟨JsProp.val ⟨JsProp.val (PastWeatherVal.str "3a")⟩,
        JsProp.val (patch3a e2)⟩ }

/-- A concrete manned observation whose W1 and W2 past-weather values are
both the number 3, stored as table entry 7. -/
def c10Record : Decoded :=
  { emptyDecoded with
    weather_indicator := .val ⟨1, false⟩,
    past_weather := .val ⟨.val ⟨.val (.num 3)⟩, .val ⟨.val (.num 3)⟩⟩ }

/-- The result a drained message contributes to the outbox. -/
def workerResult {ρ : Type} (decode : JsProp String → ρ) (m : WorkerMsg) :
    Option ρ × ℕ :=
  (some (decode m.SYNOP_raw), m.leafletID)

/-- The x cursor value as it stands when the loop reaches index `i`, before
the end-of-row reset. -/
def preX (i : ℕ) : ℚ :=
  if i ≠ 0 ∧ i % 5 = 0 then 1666/100 + 5 * (1333/100) else (gridPos i).1

/-- The y cursor value as it stands when the loop reaches index `i`, before
the end-of-row reset. -/
def preY (i : ℕ) : ℚ :=
  if i ≠ 0 ∧ i % 5 = 0 then (gridPos i).2 - 1333/100 else (gridPos i).2

/-- The slot group the loop appends for index `j < 25`. -/
def slotEntryFor (opts : RenderOptions) (rule : ℕ → List Prim) (j : ℕ) :
    SlotOut :=
  ⟨j, if j = 12 then ((50 : ℚ), (50 : ℚ)) else gridPos j,
    if j ∈ opts.elementsToOmit ∧ j ≠ 12 then [] else rule j,
    opts.debug && decide (j ≠ 12)⟩

/-! ## Helper lemmas -/

theorem jsNumToString_intCast (n : ℤ) : jsNumToString (n : ℚ) = n.repr := by
  simp [jsNumToString]

theorem jsSliceLast_append_zero (s : String) (h : 2 ≤ s.length) :
    jsSliceLast (s ++ "0") 3 = jsSliceLast s 2 ++ "0" := by
  obtain ⟨l⟩ := s
  have h' : 2 ≤ l.length := h
  show String.mk (List.drop ((l ++ ['0']).length - 3) (l ++ ['0']))
      = String.mk (List.drop (l.length - 2) l) ++ "0"
  have h1 : (l ++ ['0']).length - 3 = l.length - 2 := by
    simp [List.length_append]
  have h2 : List.drop (l.length - 2) (l ++ ['0'])
      = List.drop (l.length - 2) l ++ ['0'] := by
    rw [List.drop_append_eq_append_drop]
    have h3 : l.length - 2 - l.length = 0 := by omega
    rw [h3]
    rfl
  rw [h1, h2]
  rfl

theorem jsSliceFrom_dash (s : String) : jsSliceFrom ("-" ++ s) 1 = s := by
  obtain ⟨l⟩ := s
  rfl

theorem int_repr_of_neg (n : ℤ) (h : n < 0) : n.repr = "-" ++ (-n).repr := by
  cases n with
  | ofNat m => exact absurd h (by simp)
  | negSucc m => rfl

/-! ## Claim C2: sea-level pressure plot code -/

/-- Claim C2: for every decoded observation with `sea_level_pressure`
present, the slot-8 text is the 3-digit plot code: a value with no
fractional part (at least two digits long) renders as its last two digits
followed by `"0"`; a tenths value `n/10` renders as the last three digits of
`value * 10`, left-padded to 3 with zeros. -/
theorem slot8_pressure_plot_code_spec (d : Decoded) (slp : ValObj) (v : ℚ)
    (hf : d.sea_level_pressure = .val slp) (hv : slp.value = .val v) :
    (v.den = 1 → 2 ≤ (jsNumToString v).length →
      slot8Rule d = [.text (jsSliceLast (jsNumToString v) 2 ++ "0") (0, 0)])
    ∧ ∀ n : ℤ, v.den ≠ 1 → v * 10 = (n : ℚ) →
      slot8Rule d = [.text (padStart (jsSliceLast n.repr 3) 3 '0') (0, 0)] := by
  constructor
  · intro hden hlen
    simp only [slot8Rule, hf, hv, slot8PressurePlotCode, if_pos hden,
      jsSliceLast_append_zero _ hlen]
  · intro n hden hmul
    simp only [slot8Rule, hf, hv, slot8PressurePlotCode, if_neg hden, hmul,
      jsNumToString_intCast]

/-- Witness for C2 at the spec test vectors 1005, 1013.4 and 992.5. -/
theorem slot8_pressure_plot_code_spec_witness :
    slot8Rule (pressureOnly (.val ((1005 : ℤ) : ℚ))) = [.text "050" (0, 0)]
  ∧ slot8Rule (pressureOnly (.val (10134/10 : ℚ))) = [.text "134" (0, 0)]
  ∧ slot8Rule (pressureOnly (.val (9925/10 : ℚ))) = [.text "925" (0, 0)] := by
  refine ⟨?_, ?_, ?_⟩
  · have h := (slot8_pressure_plot_code_spec
      (pressureOnly (.val ((1005 : ℤ) : ℚ))) ⟨.val ((1005 : ℤ) : ℚ)⟩
      ((1005 : ℤ) : ℚ) rfl rfl).1 (by simp) (by rw [jsNumToString_intCast]; decide)
    rw [h, jsNumToString_intCast]
    decide
  · have h := (slot8_pressure_plot_code_spec
      (pressureOnly (.val (10134/10 : ℚ))) ⟨.val (10134/10 : ℚ)⟩
      (10134/10 : ℚ) rfl rfl).2 10134
      (by have : (10134/10 : ℚ).den = 5 := by norm_num [Rat.den]
          rw [this]; decide)
      (by norm_num)
    rw [h]
    decide
  · have h := (slot8_pressure_plot_code_spec
      (pressureOnly (.val (9925/10 : ℚ))) ⟨.val (9925/10 : ℚ)⟩
      (9925/10 : ℚ) rfl rfl).2 9925
      (by have : (9925/10 : ℚ).den = 2 := by norm_num [Rat.den]
          rw [this]; decide)
      (by norm_num)
    rw [h]
    decide

/-! ## Claim C4: wind-speed symbol matching and the calm-wind marker -/

theorem windSpeedSymbolMatch_eval_12ms : windSpeedSymbolMatch 12 "m/s" = "05" := by
  have h : jsRound ((12 : ℚ) / 2.5) = 5 := by norm_num [jsRound]
  rw [windSpeedSymbolMatch, if_pos rfl, h]
  decide

theorem windSpeedSymbolMatch_eval_375ms :
    windSpeedSymbolMatch 37.5 "m/s" = "15" := by
  have h : jsRound ((37.5 : ℚ) / 2.5) = 15 := by norm_num [jsRound]
  rw [windSpeedSymbolMatch, if_pos rfl, h]
  decide

theorem windSpeedSymbolMatch_eval_16kt : windSpeedSymbolMatch 16 "KT" = "03" := by
  have h : jsRound ((16 : ℚ) / 5) = 3 := by norm_num [jsRound]
  rw [windSpeedSymbolMatch, if_neg (by decide), if_pos rfl, h]
  decide

theorem windSpeedSymbolMatch_eval_124kt :
    windSpeedSymbolMatch 124 "KT" = "25" := by
  have h : jsRound ((124 : ℚ) / 5) = 25 := by norm_num [jsRound]
  rw [windSpeedSymbolMatch, if_neg (by decide), if_pos rfl, h]
  decide

theorem windSpeedSymbolMatch_eval_1ms : windSpeedSymbolMatch 1 "m/s" = "00" := by
  have h : jsRound ((1 : ℚ) / 2.5) = 0 := by norm_num [jsRound]
  rw [windSpeedSymbolMatch, if_pos rfl, h]
  decide

/-- Claim C4: the wind-speed symbol index is `round(speed / 2.5)` for unit
`"m/s"` and `round(speed / 5)` for `"KT"`, zero-padded to two digits; the
four spec test vectors hold; and a resulting index of `"00"` or `"01"` makes
the compiler render the calm-wind marker instead of a barbed shaft. -/
theorem windSpeedSymbolMatch_spec :
    (∀ speed : ℚ, windSpeedSymbolMatch speed "m/s"
        = padStart (jsRound (speed / 2.5)).repr 2 '0')
  ∧ (∀ speed : ℚ, windSpeedSymbolMatch speed "KT"
        = padStart (jsRound (speed / 5)).repr 2 '0')
  ∧ windSpeedSymbolMatch 12 "m/s" = "05"
  ∧ windSpeedSymbolMatch 37.5 "m/s" = "15"
  ∧ windSpeedSymbolMatch 16 "KT" = "03"
  ∧ windSpeedSymbolMatch 124 "KT" = "25"
  ∧ ∀ (assets : String → Bool) (lat : ℚ) (d : Decoded)
      (sw : SurfaceWind) (dir : WindDirection) (dv : ℚ) (sp : WindSpeed),
      d.surface_wind = .val sw → sw.direction = .val dir →
      dir.value = .val dv → sw.speed = .val sp →
      (windSpeedSymbolMatch sp.value sp.unit = "00" ∨
        windSpeedSymbolMatch sp.value sp.unit = "01") →
      assets (windArrowPath "Calm_00") = true →
      windRule assets lat d = .ok (some (.calm (windArrowPath "Calm_00"))) := by
  refine ⟨?_, ?_, windSpeedSymbolMatch_eval_12ms, windSpeedSymbolMatch_eval_375ms,
    windSpeedSymbolMatch_eval_16kt, windSpeedSymbolMatch_eval_124kt, ?_⟩
  · intro speed
    rw [windSpeedSymbolMatch, if_pos rfl]
  · intro speed
    rw [windSpeedSymbolMatch, if_neg (by decide), if_pos rfl]
  · intro assets lat d sw dir dv sp hsw hdir hdv hsp hsym hassets
    simp only [windRule, hsw, hdir, hdv, hsp, if_pos hsym, hassets]
    simp

/-- Witness for C4: concrete calm-wind observation (1 m/s from 270 degrees)
rendering the calm marker. -/
theorem windSpeedSymbolMatch_spec_witness :
    windRule (fun _ => true) 45
      { emptyDecoded with
        surface_wind := .val ⟨.val ⟨.val 270⟩, .val ⟨1, "m/s"⟩⟩ }
      = .ok (some (.calm (windArrowPath "Calm_00"))) := by
  exact windSpeedSymbolMatch_spec.2.2.2.2.2.2 (fun _ => true) 45 _ _ _ 270 _
    rfl rfl rfl rfl (Or.inl windSpeedSymbolMatch_eval_1ms) rfl

/-! ## Claim C3: pressure-tendency plot text -/

/-- Claim C3 (counterexample): for a change of -12.2 hPa in non-polychromatic
mode the slot-13 text is the signed `"-122"`, not the unsigned `"122"` the
claim states for `|v| > 9.9`. -/
theorem slot13_unsigned_counterexample :
    slot13Rule false (tendencyOnly (.val (-122/10 : ℚ)))
      = .ok ⟨[.text "-122" (0, 0)], none⟩
  ∧ ("-122" : String) ≠ "122" := by
  constructor
  · have h1 : ¬(|(-122/10 : ℚ)| ≤ 9.9) := by
      rw [abs_of_neg (show (-122/10 : ℚ) < 0 by norm_num)]
      norm_num
    have h2 : (-122/10 : ℚ) * 10 = ((-122 : ℤ) : ℚ) := by norm_num
    have h3 : ((-122 : ℤ)).repr = "-122" := by decide
    simp only [slot13Rule, tendencyOnly, emptyDecoded, slot13TendencyText,
      if_neg h1, h2, jsNumToString_intCast, h3, Bool.false_and]
    simp
  · decide

/-- Claim C3 (amended): with `pressure_tendency.change.value = v` present:
if `|v| ≤ 9.9` the slot-13 text is the 2-digit tenths magnitude with a
leading `"-"` when `v < 0`; if `|v| > 9.9` it is the 3-digit raw tenths,
likewise preceded by `"-"` when `v < 0`; in both regimes, under
`polyChromatic` and `v < 0` the sign glyph is dropped and the text is
recolored. -/
theorem slot13_tendency_text_amended (poly : Bool) (v : ℚ) (n : ℤ)
    (hn : v * 10 = (n : ℚ)) :
    (|v| ≤ 9.9 → 0 ≤ v →
      slot13TendencyText poly v = (padStart n.repr 2 '0', false))
  ∧ (|v| ≤ 9.9 → v < 0 → poly = false →
      slot13TendencyText poly v = ("-" ++ padStart (-n).repr 2 '0', false))
  ∧ (|v| ≤ 9.9 → v < 0 → poly = true →
      slot13TendencyText poly v = (padStart (-n).repr 2 '0', true))
  ∧ (9.9 < |v| → 0 ≤ v → slot13TendencyText poly v = (n.repr, false))
  ∧ (9.9 < |v| → v < 0 → poly = false →
      slot13TendencyText poly v = ("-" ++ (-n).repr, false))
  ∧ (9.9 < |v| → v < 0 → poly = true →
      slot13TendencyText poly v = ((-n).repr, true)) := by
  have habs : v < 0 → |v| * 10 = ((-n : ℤ) : ℚ) := by
    intro hv
    rw [abs_of_neg hv]
    have h : (-v) * 10 = -(v * 10) := by ring
    rw [h, hn]
    push_cast
    ring
  have hneg : v < 0 → n < 0 := by
    intro hv
    have h : (n : ℚ) < 0 := by
      rw [← hn]
      exact mul_neg_of_neg_of_pos hv (by norm_num)
    exact_mod_cast h
  refine ⟨?_, ?_, ?_, ?_, ?_, ?_⟩
  · intro h1 h2
    simp only [slot13TendencyText, if_pos h1, if_neg (not_lt.mpr h2), hn,
      jsNumToString_intCast, decide_eq_false (not_lt.mpr h2), Bool.and_false]
    simp
  · intro h1 h2 hpoly
    simp only [slot13TendencyText, if_pos h1, if_pos h2, habs h2,
      jsNumToString_intCast, hpoly, Bool.false_and]
    simp
  · intro h1 h2 hpoly
    simp only [slot13TendencyText, if_pos h1, if_pos h2, habs h2,
      jsNumToString_intCast, hpoly, decide_eq_true h2, Bool.and_self]
    simp [jsSliceFrom_dash]
  · intro h1 h2
    simp only [slot13TendencyText, if_neg (not_le.mpr h1), hn,
      jsNumToString_intCast, decide_eq_false (not_lt.mpr h2), Bool.and_false]
    simp
  · intro h1 h2 hpoly
    simp only [slot13TendencyText, if_neg (not_le.mpr h1), hn,
      jsNumToString_intCast, hpoly, Bool.false_and,
      int_repr_of_neg n (hneg h2)]
    simp
  · intro h1 h2 hpoly
    simp only [slot13TendencyText, if_neg (not_le.mpr h1), hn,
      jsNumToString_intCast, hpoly, decide_eq_true h2, Bool.and_self,
      int_repr_of_neg n (hneg h2)]
    simp [jsSliceFrom_dash]

/-- Witness for C3 (amended) at the spec test vectors. -/
theorem slot13_tendency_text_amended_witness :
    slot13TendencyText false (47/10 : ℚ) = ("47", false)
  ∧ slot13TendencyText false (99/10 : ℚ) = ("99", false)
  ∧ slot13TendencyText false (122/10 : ℚ) = ("122", false)
  ∧ slot13TendencyText false (-99/10 : ℚ) = ("-99", false)
  ∧ slot13TendencyText true (-99/10 : ℚ) = ("99", true) := by
  have habs47 : |(47/10 : ℚ)| = 47/10 := abs_of_nonneg (by norm_num)
  have habs99 : |(99/10 : ℚ)| = 99/10 := abs_of_nonneg (by norm_num)
  have habs122 : |(122/10 : ℚ)| = 122/10 := abs_of_nonneg (by norm_num)
  have habsm99 : |(-99/10 : ℚ)| = 99/10 := by
    rw [abs_of_neg (show (-99/10 : ℚ) < 0 by norm_num)]
    norm_num
  refine ⟨?_, ?_, ?_, ?_, ?_⟩
  · have h := (slot13_tendency_text_amended false (47/10) 47 (by norm_num)).1
      (by rw [habs47]; norm_num) (by norm_num)
    rw [h]; decide
  · have h := (slot13_tendency_text_amended false (99/10) 99 (by norm_num)).1
      (by rw [habs99]; norm_num) (by norm_num)
    rw [h]; decide
  · have h := (slot13_tendency_text_amended false (122/10) 122
      (by norm_num)).2.2.2.1 (by rw [habs122]; norm_num) (by norm_num)
    rw [h]; decide
  · have h := (slot13_tendency_text_amended false (-99/10) (-99)
      (by norm_num)).2.1 (by rw [habsm99]; norm_num) (by norm_num) rfl
    rw [h]; decide
  · have h := (slot13_tendency_text_amended true (-99/10) (-99)
      (by norm_num)).2.2.1 (by rw [habsm99]; norm_num) (by norm_num) rfl
    rw [h]; decide

/-! ## Claim C5: hemisphere selection and shaft rotation -/

/-- Claim C5: with wind direction present and a non-calm speed symbol index,
latitude > 0 selects the northern-hemisphere icon set rotated by
direction + 90 degrees, latitude ≤ 0 the southern set rotated by
direction - 90 degrees. -/
theorem windRule_hemisphere_spec (assets : String → Bool) (lat : ℚ)
    (d : Decoded) (sw : SurfaceWind) (dir : WindDirection) (dv : ℚ)
    (sp : WindSpeed)
    (hsw : d.surface_wind = .val sw) (hdir : sw.direction = .val dir)
    (hdv : dir.value = .val dv) (hsp : sw.speed = .val sp)
    (h00 : windSpeedSymbolMatch sp.value sp.unit ≠ "00")
    (h01 : windSpeedSymbolMatch sp.value sp.unit ≠ "01") :
    (0 < lat →
      assets (windArrowPath ("NH_" ++ windSpeedSymbolMatch sp.value sp.unit))
        = true →
      windRule assets lat d = .ok (some (.shaft
        (windArrowPath ("NH_" ++ windSpeedSymbolMatch sp.value sp.unit))
        (dv + 90))))
  ∧ (lat ≤ 0 →
      assets (windArrowPath ("SH_" ++ windSpeedSymbolMatch sp.value sp.unit))
        = true →
      windRule assets lat d = .ok (some (.shaft
        (windArrowPath ("SH_" ++ windSpeedSymbolMatch sp.value sp.unit))
        (dv - 90)))) := by
  have hsym : ¬(windSpeedSymbolMatch sp.value sp.unit = "00" ∨
      windSpeedSymbolMatch sp.value sp.unit = "01") := by
    intro h
    rcases h with h | h
    · exact h00 h
    · exact h01 h
  constructor
  · intro hlat hassets
    simp only [windRule, hsw, hdir, hdv, hsp, if_neg hsym, if_pos hlat,
      hassets]
    simp
  · intro hlat hassets
    simp only [windRule, hsw, hdir, hdv, hsp, if_neg hsym,
      if_neg (not_lt.mpr hlat), hassets]
    simp

/-- Witness for C5: direction 270, speed 12 m/s at latitude 45 yields the
northern-hemisphere icon for symbol index "05" rotated by 360 degrees. -/
theorem windRule_hemisphere_spec_witness :
    windRule (fun _ => true) 45
      { emptyDecoded with
        surface_wind := .val ⟨.val ⟨.val 270⟩, .val ⟨12, "m/s"⟩⟩ }
      = .ok (some (.shaft (windArrowPath "NH_05") 360)) := by
  have h := (windRule_hemisphere_spec (fun _ => true) 45
      { emptyDecoded with
        surface_wind := .val ⟨.val ⟨.val 270⟩, .val ⟨12, "m/s"⟩⟩ }
      ⟨.val ⟨.val 270⟩, .val ⟨12, "m/s"⟩⟩ ⟨.val 270⟩ 270 ⟨12, "m/s"⟩
      rfl rfl rfl rfl
      (by rw [windSpeedSymbolMatch_eval_12ms]; decide)
      (by rw [windSpeedSymbolMatch_eval_12ms]; decide)).1
    (by norm_num) rfl
  rw [h, windSpeedSymbolMatch_eval_12ms]
  norm_num
  rfl

/-! ## Claim C6: slot 11 present-weather indicator rules -/

/-- Claim C6: with `present_weather` present, slot 11 follows the indicator
rules: automatic stations use the wawa set (indicator 5 blank, 6 the literal
"//", otherwise the icon for the zero-padded weather code); manned stations
use the ww set (indicator 2/5 blank, 3/6 "//", otherwise the icon).  The
"indicator 7 (automatic) / 1 or 4 (manned) with no present-weather group"
sub-conditions of the source cannot fire when `present_weather` is present. -/
theorem slot11_indicator_rules (assets : String → Bool) (d : Decoded)
    (pw : PresentWeather) (wi : WeatherIndicator)
    (hpw : d.present_weather = .val pw)
    (hwi : d.weather_indicator = .val wi) :
    (wi.automatic = true → wi.value = 5 →
      slot11Rule assets d = .ok ⟨[], none⟩)
  ∧ (wi.automatic = true → wi.value = 6 →
      slot11Rule assets d = .ok ⟨[.text "//" (0, 0)], none⟩)
  ∧ (wi.automatic = true → wi.value ≠ 5 → wi.value ≠ 6 →
      slot11Rule assets d = .ok
        ⟨iconOpt assets (wawaIconPath (padStart (jsNumToString pw.value) 2 '0'))
          (-1333/1000, 0), none⟩)
  ∧ (wi.automatic = false → wi.value = 2 ∨ wi.value = 5 →
      slot11Rule assets d = .ok ⟨[], none⟩)
  ∧ (wi.automatic = false → wi.value = 3 ∨ wi.value = 6 →
      slot11Rule assets d = .ok ⟨[.text "//" (0, 0)], none⟩)
  ∧ (wi.automatic = false → wi.value ≠ 2 → wi.value ≠ 5 → wi.value ≠ 3 →
      wi.value ≠ 6 →
      slot11Rule assets d = .ok
        ⟨iconOpt assets (wwIconPath (padStart (jsNumToString pw.value) 2 '0'))
          (-1333/1000, 0), none⟩) := by
  refine ⟨?_, ?_, ?_, ?_, ?_, ?_⟩
  · intro hauto h5
    simp only [slot11Rule, hpw, hwi, JsProp.get, Bind.bind, Except.bind, hauto, h5]
    simp
  · intro hauto h6
    have h5 : ¬((6 : ℚ) = 5) := by norm_num
    simp only [slot11Rule, hpw, hwi, JsProp.get, Bind.bind, Except.bind, hauto, h6]
    simp [h5]
  · intro hauto h5 h6
    have hc : ¬(wi.value = 6 ∨ wi.value = 7 ∧ (JsProp.val pw).hasOwn = false)
        := by
      rintro (h | ⟨_, h⟩)
      · exact h6 h
      · simp [JsProp.hasOwn] at h
    simp only [slot11Rule, hpw, hwi, JsProp.get, Bind.bind, Except.bind, hauto, if_neg h5, if_neg hc]
    simp
  · intro hman h25
    simp only [slot11Rule, hpw, hwi, JsProp.get, Bind.bind, Except.bind, hman, if_pos h25]
    simp
  · intro hman h36
    have h25 : ¬(wi.value = 2 ∨ wi.value = 5) := by
      rcases h36 with h | h <;> rw [h] <;> rintro (hc | hc) <;> norm_num at hc
    have hc : wi.value = 3 ∨ wi.value = 6 ∨
        (wi.value = 1 ∨ wi.value = 4) ∧ (JsProp.val pw).hasOwn = false := by
      rcases h36 with h | h
      · exact Or.inl h
      · exact Or.inr (Or.inl h)
    simp only [slot11Rule, hpw, hwi, JsProp.get, Bind.bind, Except.bind, hman, if_neg h25, if_pos hc]
    simp
  · intro hman h2 h5 h3 h6
    have h25 : ¬(wi.value = 2 ∨ wi.value = 5) := by
      rintro (h | h)
      · exact h2 h
      · exact h5 h
    have hc : ¬(wi.value = 3 ∨ wi.value = 6 ∨
        (wi.value = 1 ∨ wi.value = 4) ∧ (JsProp.val pw).hasOwn = false) := by
      rintro (h | h | ⟨_, h⟩)
      · exact h3 h
      · exact h6 h
      · simp [JsProp.hasOwn] at h
    simp only [slot11Rule, hpw, hwi, JsProp.get, Bind.bind, Except.bind, hman, if_neg h25, if_neg hc]
    simp

/-- Witness for C6: manned station, indicator 1, present-weather code 5,
all assets available: slot 11 renders the ww icon for "05". -/
theorem slot11_indicator_rules_witness :
    slot11Rule (fun _ => true)
      { emptyDecoded with
        present_weather := .val ⟨((5 : ℤ) : ℚ)⟩,
        weather_indicator := .val ⟨1, false⟩ }
      = .ok ⟨[.icon (wwIconPath "05") (-1333/1000, 0)], none⟩ := by
  have h := (slot11_indicator_rules (fun _ => true)
      { emptyDecoded with
        present_weather := .val ⟨((5 : ℤ) : ℚ)⟩,
        weather_indicator := .val ⟨1, false⟩ }
      ⟨((5 : ℤ) : ℚ)⟩ ⟨1, false⟩ rfl rfl).2.2.2.2.2 rfl (by norm_num)
      (by norm_num) (by norm_num) (by norm_num)
  rw [h, jsNumToString_intCast]
  have hps : padStart ((5 : ℤ)).repr 2 '0' = "05" := by decide
  rw [hps]
  simp [iconOpt]

/-! ## Claim C7: slot rules are claimed never to throw -/

/-- Claim C7 is violated by the code (evaluated at the failing inputs): the
slot-17 `low_cloud_type.value == 0` sub-layout dereferences
`lowest_cloud_base._code` with no presence check and raises a `TypeError`
when that field is absent; and the wind overlay's final
`element.appendChild(icon)` sits outside every `if (icon)` guard, so a
missing wind-arrow asset raises instead of degrading silently. -/
theorem slot_rules_can_throw :
    slot17Rule (fun _ => true)
      { emptyDecoded with
        cloud_types := .val ⟨.absent, .absent, .val ⟨.val 0⟩, .absent,
          .val ⟨.val 3⟩⟩ }
      = .error .typeError
  ∧ windRule (fun _ => false) 45
      { emptyDecoded with
        surface_wind := .val ⟨.val ⟨.val 270⟩, .val ⟨12, "m/s"⟩⟩ }
      = .error .typeError := by
  constructor
  · simp only [slot17Rule, emptyDecoded, JsProp.isVal, JsProp.get, Bind.bind,
      Except.bind, if_pos rfl]
    simp
  · have hsym : ¬(windSpeedSymbolMatch 12 "m/s" = "00" ∨
        windSpeedSymbolMatch 12 "m/s" = "01") := by
      rw [windSpeedSymbolMatch_eval_12ms]
      decide
    simp only [windRule, emptyDecoded, if_neg hsym,
      if_pos (show (0 : ℚ) < 45 by norm_num)]
    simp

/-! ## Claim C10: compiling mutates the stored decoded record -/

theorem JsProp.isVal_val {α : Type} (a : α) : (JsProp.val a).isVal = true :=
  rfl

/-- Claim C10: for a manned station whose `past_weather[0].value` is the
number 3 and whose `past_weather[1]` qualifies for the two-icon layout, the
slot-18 rule overwrites `past_weather[0].value` (and, once the first icon
has loaded, `past_weather[1].value` via `patch3a`) with the string `"3a"`
before building the icon path; and since the record is the entry of the
shared decoded-results table, the stored entry is permanently mutated by
rendering. -/
theorem slot18_mutates_stored_record (assets : String → Bool) (poly : Bool)
    (table : List (ℕ × Decoded)) (id : ℕ) (d : Decoded) (pw : PastWeather)
    (e1 e2 : PastWeatherEntry) (wi : WeatherIndicator)
    (htab : decodedSynopsLookup table id = some d)
    (hpw : d.past_weather = .val pw)
    (hw1 : pw.w1 = .val e1) (h1v : e1.value = .val (.num 3))
    (hw2 : pw.w2 = .val e2)
    (h2p : e2.value.isVal = true)
    (h20 : jsLooseEqNum e2.value 0 = false)
    (h21 : jsLooseEqNum e2.value 1 = false)
    (h22 : jsLooseEqNum e2.value 2 = false)
    (hwi : d.weather_indicator = .val wi) (hman : wi.automatic = false)
    (hicon : assets (pastWeatherMannedPath (.val (.str "3a"))) = true) :
    meteoStationSlot18 assets poly table id = some (.ok
      ⟨[.icon (pastWeatherMannedPath (.val (.str "3a"))) (-1333/380, 0)] ++
        (if assets (pastWeatherMannedPath (patch3a e2).value) then
          [.icon (pastWeatherMannedPath (patch3a e2).value) (1333/220, 0)]
        else []),
        if assets (pastWeatherMannedPath (patch3a e2).value) ∧ poly = true
        then some .redFilter else none⟩,
      table.map (fun p => if p.1 = id then (p.1, slot18Mutated d e2) else p))
  ∧ slot18Mutated d e2 ≠ d := by
  have h3 : jsLooseEqNum (JsProp.val (PastWeatherVal.num 3)) 3 = true := by
    simp [jsLooseEqNum]
  have hpatch : patch3a e1 = ⟨.val (.str "3a")⟩ := by
    unfold patch3a
    rw [h1v, h3]
    simp
  constructor
  · simp only [meteoStationSlot18, htab, slot18Rule, hpw, hw1, hw2, hwi,
      JsProp.get, JsProp.isVal_val, Bind.bind, Except.bind, hman, h2p, h20,
      h21, h22, hpatch, hicon, slot18Mutated]
    simp
  · intro hEq
    have h4 := congrArg Decoded.past_weather hEq
    simp only [slot18Mutated, hpw] at h4
    have h5 : (⟨.val ⟨.val (.str "3a")⟩, .val (patch3a e2)⟩ : PastWeather)
        = pw := by
      exact JsProp.val.inj h4
    have h6 := congrArg PastWeather.w1 h5
    simp only [hw1] at h6
    have h7 : (⟨.val (.str "3a")⟩ : PastWeatherEntry) = e1 :=
      JsProp.val.inj h6
    have h8 := congrArg PastWeatherEntry.value h7
    rw [h1v] at h8
    exact absurd (JsProp.val.inj h8) (by simp)

/-- Witness for C10: rendering slot 18 for entry 7 replaces both stored
past-weather values with the string "3a". -/
theorem slot18_mutates_stored_record_witness :
    meteoStationSlot18 (fun _ => true) true [(7, c10Record)] 7
      = some (.ok
        ⟨[.icon (pastWeatherMannedPath (.val (.str "3a"))) (-1333/380, 0),
          .icon (pastWeatherMannedPath (.val (.str "3a"))) (1333/220, 0)],
         some .redFilter⟩,
        [(7, slot18Mutated c10Record ⟨.val (.num 3)⟩)])
  ∧ slot18Mutated c10Record ⟨.val (.num 3)⟩ ≠ c10Record := by
  have hpatch2 : patch3a (⟨.val (.num 3)⟩ : PastWeatherEntry)
      = ⟨.val (.str "3a")⟩ := by
    unfold patch3a
    simp [jsLooseEqNum]
  have h20 : jsLooseEqNum (JsProp.val (PastWeatherVal.num 3)) 0 = false := by
    simp only [jsLooseEqNum]
    rw [decide_eq_false_iff_not]
    norm_num
  have h21 : jsLooseEqNum (JsProp.val (PastWeatherVal.num 3)) 1 = false := by
    simp only [jsLooseEqNum]
    rw [decide_eq_false_iff_not]
    norm_num
  have h22 : jsLooseEqNum (JsProp.val (PastWeatherVal.num 3)) 2 = false := by
    simp only [jsLooseEqNum]
    rw [decide_eq_false_iff_not]
    norm_num
  obtain ⟨h1, h2⟩ := slot18_mutates_stored_record (fun _ => true) true
    [(7, c10Record)] 7 c10Record
    ⟨.val ⟨.val (.num 3)⟩, .val ⟨.val (.num 3)⟩⟩
    ⟨.val (.num 3)⟩ ⟨.val (.num 3)⟩ ⟨1, false⟩
    rfl rfl rfl rfl rfl rfl h20 h21 h22 rfl rfl rfl
  refine ⟨?_, h2⟩
  rw [h1, hpatch2]
  simp

/-! ## Claim C8: null raw text short-circuits; empty features are skipped -/

/-- Claim C8: a request whose raw observation text is absent (or null) is
answered immediately with the no-op result `(null, correlationID)`, nothing
is enqueued, and the decode backend is never engaged (the resulting state is
independent of the backend function); at the host layer, a feature whose
observation attribute is missing or the empty string is skipped without the
compiler or decoder being invoked. -/
theorem submit_null_no_op {ρ : Type} (decode decode2 : JsProp String → ρ)
    (st : WState ρ) (m : WorkerMsg) (hm : m.SYNOP_raw.looseNull = true)
    (f : Feature) (hf : f.fieldValue = .absent ∨ f.fieldValue = .val "") :
    handleMessage decode st m
      = { st with outbox := st.outbox ++ [(none, m.leafletID)] }
  ∧ (handleMessage decode st m).messageQueue = st.messageQueue
  ∧ handleMessage decode st m = handleMessage decode2 st m
  ∧ wrapperInvocations [f] = [] := by
  have h1 : handleMessage decode st m
      = { st with outbox := st.outbox ++ [(none, m.leafletID)] } := by
    rw [handleMessage, if_pos hm]
  have h2 : handleMessage decode2 st m
      = { st with outbox := st.outbox ++ [(none, m.leafletID)] } := by
    rw [handleMessage, if_pos hm]
  have h3 : wrapperInvocations [f] = [] := by
    rcases hf with h | h <;> simp [wrapperInvocations, wrapperSkips, h]
  exact ⟨h1, by rw [h1], h1.trans h2.symm, h3⟩

/-- Witness for C8: an absent-text message and an absent-attribute feature. -/
theorem submit_null_no_op_witness :
    handleMessage (fun _ => (0 : ℕ)) ⟨true, [], []⟩ ⟨.absent, 5⟩
      = ⟨true, [], [(none, 5)]⟩
  ∧ wrapperInvocations [⟨.absent, 1⟩] = [] := by
  obtain ⟨h1, _, _, h4⟩ := submit_null_no_op (fun _ => (0 : ℕ)) (fun _ => 0)
    ⟨true, [], []⟩ ⟨.absent, 5⟩ rfl ⟨.absent, 1⟩ (Or.inl rfl)
  exact ⟨by rw [h1]; rfl, h4⟩

/-! ## Claim C9: FIFO buffering across backend initialization -/

theorem processQueueLoop_eq_map {ρ : Type} (decode : JsProp String → ρ)
    (l : List WorkerMsg) :
    processQueueLoop decode l = l.map (workerResult decode) := by
  induction l with
  | nil => rfl
  | cons m rest ih => simp [processQueueLoop, decodeSynop, workerResult, ih]

theorem wrun_cons {ρ : Type} (decode : JsProp String → ρ) (st : WState ρ)
    (e : WEvent) (es : List WEvent) :
    wrun decode st (e :: es) = wrun decode (wstep decode st e) es :=
  rfl

theorem wrun_append {ρ : Type} (decode : JsProp String → ρ)
    (es1 es2 : List WEvent) (st : WState ρ) :
    wrun decode st (es1 ++ es2) = wrun decode (wrun decode st es1) es2 := by
  induction es1 generalizing st with
  | nil => rfl
  | cons e rest ih => simp [wrun, ih]

theorem wrun_buffering {ρ : Type} (decode : JsProp String → ρ) :
    ∀ (rs : List WorkerMsg) (st : WState ρ),
    st.pyodideStarting = true →
    (∀ m ∈ rs, m.SYNOP_raw.looseNull = false) →
    wrun decode st (rs.map .msg)
      = { st with messageQueue := st.messageQueue ++ rs }
  | [], st, _, _ => by simp [wrun]
  | m :: rest, st, hstart, h => by
    have hm := h m (List.mem_cons_self _ _)
    have hrest : ∀ x ∈ rest, x.SYNOP_raw.looseNull = false :=
      fun x hx => h x (List.mem_cons_of_mem _ hx)
    have hstep : wstep decode st (.msg m)
        = { st with messageQueue := st.messageQueue ++ [m] } := by
      simp [wstep, handleMessage, hm, hstart]
    have hstart2 : ({ st with messageQueue := st.messageQueue ++ [m] }
        : WState ρ).pyodideStarting = true := hstart
    rw [List.map_cons, wrun_cons, hstep,
      wrun_buffering decode rest _ hstart2 hrest]
    simp

theorem wrun_after_init {ρ : Type} (decode : JsProp String → ρ) :
    ∀ (rs : List WorkerMsg) (st : WState ρ),
    st.pyodideStarting = false →
    st.messageQueue = [] →
    (∀ m ∈ rs, m.SYNOP_raw.looseNull = false) →
    wrun decode st (rs.map .msg)
      = { st with outbox := st.outbox ++ rs.map (workerResult decode) }
  | [], st, _, _, _ => by simp [wrun]
  | m :: rest, st, hstart, hq, h => by
    have hm := h m (List.mem_cons_self _ _)
    have hrest : ∀ x ∈ rest, x.SYNOP_raw.looseNull = false :=
      fun x hx => h x (List.mem_cons_of_mem _ hx)
    have hstep : wstep decode st (.msg m)
        = ⟨st.pyodideStarting, [], st.outbox ++ [workerResult decode m]⟩ := by
      simp [wstep, handleMessage, hm, hstart, hq, processQueue,
        processQueueLoop, decodeSynop, workerResult]
    have hstart2 : (⟨st.pyodideStarting, [],
        st.outbox ++ [workerResult decode m]⟩ : WState ρ).pyodideStarting
        = false := hstart
    rw [List.map_cons, wrun_cons, hstep,
      wrun_after_init decode rest
        ⟨st.pyodideStarting, [], st.outbox ++ [workerResult decode m]⟩
        hstart2 rfl hrest]
    simp [hq]

theorem pyodideInitDone_drains {ρ : Type} (decode : JsProp String → ρ)
    (q : List WorkerMsg) (ob : List (Option ρ × ℕ)) :
    pyodideInitDone decode ⟨true, q, ob⟩
      = ⟨false, [], ob ++ q.map (workerResult decode)⟩ := by
  cases q with
  | nil => simp [pyodideInitDone, processQueue]
  | cons x rest =>
    simp [pyodideInitDone, processQueue, processQueueLoop_eq_map]

/-- Claim C9: requests submitted while the backend is initializing are
buffered in arrival order; once initialization completes they are drained
strictly FIFO before any newly arriving request (the backend handling one
request at a time), so results are delivered in submission order. -/
theorem worker_fifo_order {ρ : Type} (decode : JsProp String → ρ)
    (rs rsAfter : List WorkerMsg)
    (h : ∀ m ∈ rs, m.SYNOP_raw.looseNull = false)
    (h2 : ∀ m ∈ rsAfter, m.SYNOP_raw.looseNull = false) :
    (wrun decode ⟨true, [], []⟩ (rs.map .msg)).messageQueue = rs
  ∧ (wrun decode ⟨true, [], []⟩ (rs.map .msg)).outbox = []
  ∧ (wrun decode ⟨true, [], []⟩
        (rs.map .msg ++ .initDone :: rsAfter.map .msg)).outbox
      = (rs ++ rsAfter).map (workerResult decode) := by
  have hbuf := wrun_buffering decode rs ⟨true, [], []⟩ rfl h
  refine ⟨by rw [hbuf]; simp, by rw [hbuf], ?_⟩
  rw [wrun_append, hbuf]
  change (wrun decode (wstep decode ⟨true, [] ++ rs, []⟩ WEvent.initDone)
    (rsAfter.map WEvent.msg)).outbox = _
  have hdrain : wstep decode (⟨true, [] ++ rs, []⟩ : WState ρ) WEvent.initDone
      = ⟨false, [], [] ++ ([] ++ rs).map (workerResult decode)⟩ := by
    rw [show wstep decode (⟨true, [] ++ rs, []⟩ : WState ρ) WEvent.initDone
        = pyodideInitDone decode ⟨true, [] ++ rs, []⟩ from rfl,
      pyodideInitDone_drains]
  rw [hdrain, wrun_after_init decode rsAfter _ rfl rfl h2]
  simp

/-- Witness for C9: two buffered requests and one later request are decoded
and answered in submission order. -/
theorem worker_fifo_order_witness :
    (wrun (fun s => s) ⟨true, [], []⟩
        [.msg ⟨.val "AAXX 1", 1⟩, .msg ⟨.val "AAXX 2", 2⟩, .initDone,
          .msg ⟨.val "AAXX 3", 3⟩]).outbox
      = [(some (.val "AAXX 1"), 1), (some (.val "AAXX 2"), 2),
          (some (.val "AAXX 3"), 3)] := by
  have h := (worker_fifo_order (fun s => s)
    [⟨.val "AAXX 1", 1⟩, ⟨.val "AAXX 2", 2⟩] [⟨.val "AAXX 3", 3⟩]
    (by decide) (by decide)).2.2
  simpa [workerResult] using h

/-! ## Claim C1: slot 12 always rendered at the centre; omission semantics -/

theorem gridPos_step (i : ℕ) :
    (gridPos i).1 + 1333/100 = preX (i + 1)
  ∧ (gridPos i).2 = preY (i + 1) := by
  by_cases h5 : (i + 1) % 5 = 0
  · have h1 : i % 5 = 4 := by omega
    have h2 : (i + 1) / 5 = i / 5 + 1 := by omega
    constructor
    · rw [preX, if_pos ⟨by omega, h5⟩, gridPos]
      simp only [h1]
      norm_num
    · rw [preY, if_pos ⟨by omega, h5⟩, gridPos, gridPos]
      simp only [h2]
      push_cast
      ring
  · have h1 : (i + 1) % 5 = i % 5 + 1 := by omega
    have h2 : (i + 1) / 5 = i / 5 := by omega
    constructor
    · rw [preX, if_neg (by tauto), gridPos, gridPos]
      simp only [h1]
      push_cast
      ring
    · rw [preY, if_neg (by tauto), gridPos, gridPos]
      simp only [h2]

theorem aux_range'_slots (opts : RenderOptions) (rule : ℕ → List Prim) :
    ∀ (n i : ℕ), i + n = 26 →
    (meteoStationSlotsAux opts rule (List.range' i n) (preX i) (preY i)).1
      = (List.range' i n).filterMap
          (fun j => if j = 25 then none else some (slotEntryFor opts rule j))
  | 0, i, _ => by simp [meteoStationSlotsAux]
  | n + 1, i, h => by
    rw [show List.range' i (n + 1) = i :: List.range' (i + 1) n from rfl]
    by_cases h25 : i = 25
    · subst h25
      have hn : n = 0 := by omega
      subst hn
      simp [meteoStationSlotsAux]
    · have hx : (if i ≠ 0 ∧ i % 5 = 0 then (1666/100 : ℚ) else preX i)
          = (gridPos i).1 := by
        by_cases hc : i ≠ 0 ∧ i % 5 = 0
        · rw [if_pos hc, gridPos]
          simp only [hc.2]
          norm_num
        · rw [if_neg hc, preX, if_neg hc]
      have hy : (if i ≠ 0 ∧ i % 5 = 0 then preY i + 1333/100 else preY i)
          = (gridPos i).2 := by
        by_cases hc : i ≠ 0 ∧ i % 5 = 0
        · rw [if_pos hc, preY, if_pos hc]
          ring
        · rw [if_neg hc, preY, if_neg hc]
      have hrec := aux_range'_slots opts rule n (i + 1) (by omega)
      rw [← (gridPos_step i).1, ← (gridPos_step i).2] at hrec
      simp only [meteoStationSlotsAux, if_neg h25, hx, hy, hrec,
        List.filterMap_cons, slotEntryFor, if_neg h25, Prod.mk.eta]
      by_cases homit : i ∈ opts.elementsToOmit ∧ ¬i = 12
      · simp [homit]
      · simp [homit]

theorem aux_map_idx (opts : RenderOptions) (rule : ℕ → List Prim) :
    ∀ (ilist : List ℕ) (x y : ℚ),
    ((meteoStationSlotsAux opts rule ilist x y).1).map SlotOut.idx
      = ilist.filter (fun i => i != 25)
  | [], _, _ => rfl
  | i :: rest, x, y => by
    by_cases h : i = 25
    · subst h
      simp [meteoStationSlotsAux, aux_map_idx opts rule rest]
    · by_cases homit : i ∈ opts.elementsToOmit ∧ ¬i = 12
      · simp [meteoStationSlotsAux, h, homit, aux_map_idx opts rule rest]
      · simp [meteoStationSlotsAux, h, homit, aux_map_idx opts rule rest]

theorem aux_warn_mem (opts : RenderOptions) (rule : ℕ → List Prim) :
    ∀ (ilist : List ℕ) (x y : ℚ),
    12 ∈ ilist → 12 ∈ opts.elementsToOmit →
    Warn.cell12CannotBeOmitted ∈ (meteoStationSlotsAux opts rule ilist x y).2
  | [], _, _, hmem, _ => absurd hmem (by simp)
  | i :: rest, x, y, hmem, homit => by
    by_cases h : i = 12
    · subst h
      simp [meteoStationSlotsAux, homit]
    · have hmem2 : 12 ∈ rest := by
        rcases List.mem_cons.mp hmem with heq | hm
        · exact absurd heq.symm h
        · exact hm
      by_cases h25 : i = 25
      · subst h25
        simpa [meteoStationSlotsAux] using
          aux_warn_mem opts rule rest x y hmem2 homit
      · simp only [meteoStationSlotsAux, if_neg h25]
        simp only [List.mem_append]
        exact Or.inr (aux_warn_mem opts rule rest _ _ hmem2 homit)

theorem meteoStationSlots_fst (opts : RenderOptions) (rule : ℕ → List Prim) :
    (meteoStationSlots opts rule).1
      = (List.range' 0 26).filterMap
          (fun j => if j = 25 then none else some (slotEntryFor opts rule j))
    := by
  have hchar := aux_range'_slots opts rule 26 0 rfl
  rw [show preX 0 = (1666/100 : ℚ) from by simp [preX, gridPos],
    show preY 0 = (1666/100 : ℚ) from by simp [preY, gridPos]] at hchar
  rw [meteoStationSlots, List.range_eq_range']
  exact hchar

/-- Claim C1: the compiled diagram appends exactly the slot groups 0-24 in
order; slot 12 sits at the canvas centre `translate(50, 50)` with its rule
content even when 12 is listed in `elementsToOmit` (in which case the
diagnostic is logged); every other omitted index `i < 25` still gets its
container appended at its grid position, with no field content (only the
debug outline follows the `debug` option), its per-index rule skipped. -/
theorem meteoStation_slot12_and_omission (opts : RenderOptions)
    (rule : ℕ → List Prim) :
    (meteoStationSlots opts rule).1.map SlotOut.idx = List.range 25
  ∧ (⟨12, (50, 50), rule 12, false⟩ : SlotOut)
      ∈ (meteoStationSlots opts rule).1
  ∧ (12 ∈ opts.elementsToOmit →
      Warn.cell12CannotBeOmitted ∈ (meteoStationSlots opts rule).2)
  ∧ ∀ i ∈ opts.elementsToOmit, i < 25 → i ≠ 12 →
      (⟨i, gridPos i, [], opts.debug⟩ : SlotOut)
        ∈ (meteoStationSlots opts rule).1 := by
  refine ⟨?_, ?_, ?_, ?_⟩
  · rw [meteoStationSlots, aux_map_idx]
    decide
  · rw [meteoStationSlots_fst]
    rw [List.mem_filterMap]
    refine ⟨12, by decide, ?_⟩
    simp [slotEntryFor]
  · intro h12
    exact aux_warn_mem opts rule _ _ _ (by decide) h12
  · intro i hi hlt hne
    rw [meteoStationSlots_fst, List.mem_filterMap]
    refine ⟨i, ?_, ?_⟩
    · rw [List.mem_range'_1]
      omega
    · rw [if_neg (by omega), slotEntryFor]
      simp [hi, hne]

/-- Witness for C1: `elementsToOmit = [3, 12]`; slot 12 is still rendered at
the centre (with the diagnostic logged) and slot 3 is rendered empty at its
grid position. -/
theorem meteoStation_slot12_and_omission_witness :
    (⟨12, (50, 50), [], false⟩ : SlotOut)
      ∈ (meteoStationSlots
          ⟨1, 1, true, true, "raw", "raw", [3, 12], false⟩ (fun _ => [])).1
  ∧ Warn.cell12CannotBeOmitted
      ∈ (meteoStationSlots
          ⟨1, 1, true, true, "raw", "raw", [3, 12], false⟩ (fun _ => [])).2
  ∧ (⟨3, gridPos 3, [], false⟩ : SlotOut)
      ∈ (meteoStationSlots
          ⟨1, 1, true, true, "raw", "raw", [3, 12], false⟩ (fun _ => [])).1
    := by
  obtain ⟨-, h2, h3, h4⟩ := meteoStation_slot12_and_omission
    ⟨1, 1, true, true, "raw", "raw", [3, 12], false⟩ (fun _ => [])
  exact ⟨h2, h3 (by decide), h4 3 (by decide) (by decide) (by decide)⟩
